import Mathlib

/-!
Verification development for the Facebook Conversions API e-commerce
tracking service (Next.js/TypeScript).  The definitions below are a
shallow embedding of the source files:

* src/lib/fbevents.ts            (getHashedValue, hashUserData,
                                  getGeolocationData, sendServerEvent)
* src/app/api/track/.../route.ts (per-event validators and the
                                  cookie/body fbc-fbp merge)
* src/unnamed/part_003, part_005 (AddToCart and Purchase validators)

Modelling conventions:
* JavaScript numbers are modelled as exact rationals (Rat).  All the
  validation arithmetic in the source uses small decimal constants for
  which rational arithmetic is faithful.
* JavaScript objects whose keys matter are modelled as association
  lists (first entry wins on lookup, matching property access; the
  delete operator removes the key; object spread puts the later
  object first for lookup).
* JavaScript string truthiness: the empty string and undefined are
  falsy, every other string is truthy.
* The untyped (any) payloads accepted by the validators are modelled
  by typed structures whose fields carry the dynamic type the code
  tests for; a field that is absent or of the wrong dynamic type is
  modelled as the absent option.  Within that domain every check of
  the source validators is reproduced.
* String canonicalisation (trim, toLowerCase, regex replacements) is
  modelled over the character list of the string, matching the
  JavaScript behaviour on ASCII data.
-/

set_option maxRecDepth 20000

/-- Truthiness of an optional JavaScript string: undefined and the
empty string are falsy. -/
def jsTruthyOpt : Option String → Bool
  | none => false
  | some s => s ≠ ""

/-- The JavaScript expression a OR b on an optional string with a
string fallback. -/
def jsOrStr (o : Option String) (d : String) : String :=
  match o with
  | some s => if s = "" then d else s
  | none => d

/-- JavaScript String.prototype.trim modelled on the character list
(whitespace stripped from both ends). -/
def jsTrim (s : String) : String :=
  String.mk (((s.data.dropWhile Char.isWhitespace).reverse.dropWhile Char.isWhitespace).reverse)

/-- JavaScript String.prototype.toLowerCase on ASCII data. -/
def jsToLower (s : String) : String :=
  String.mk (s.data.map Char.toLower)

/-- Removal of every non-digit character, the regex replace(/\D/g,
empty). -/
def jsStripNonDigits (s : String) : String :=
  String.mk (s.data.filter Char.isDigit)

/-- Removal of every whitespace character, the regex replace(/\s+/g,
empty). -/
def jsStripWhitespace (s : String) : String :=
  String.mk (s.data.filter (fun c => ¬ c.isWhitespace))

/-- Character class of the regex [^a-z0-9] with the i flag: ASCII
letters and digits are kept, everything else is removed. -/
def isAsciiAlphanum (c : Char) : Bool :=
  (('a' ≤ c ∧ c ≤ 'z') ∨ ('A' ≤ c ∧ c ≤ 'Z') ∨ ('0' ≤ c ∧ c ≤ '9') : Prop)

/-- Removal of every character outside [a-z0-9] case-insensitively,
the regex replace(/[^a-z0-9]/gi, empty). -/
def jsStripNonAlphanum (s : String) : String :=
  String.mk (s.data.filter isAsciiAlphanum)

/-- JavaScript String.prototype.charAt(0) as a string: the first
character, or the empty string. -/
def jsCharAt0 (s : String) : String :=
  String.mk (s.data.take 1)

/-! ### SHA-256

Embedding of the digest computed by crypto.subtle.digest with the
SHA-256 algorithm inside getHashedValue (src/lib/fbevents.ts lines
101-108).  Words are natural numbers reduced modulo 2 ^ 32. -/

/-- Reduction of a natural number to a 32-bit word. -/
def mask32 (n : Nat) : Nat := n % 4294967296

/-- 32-bit right rotation. -/
def rotr32 (x n : Nat) : Nat := mask32 ((x >>> n) ||| (x <<< (32 - n)))

def sha256Ch (x y z : Nat) : Nat := (x &&& y) ^^^ ((x ^^^ 4294967295) &&& z)

def sha256Maj (x y z : Nat) : Nat := (x &&& y) ^^^ (x &&& z) ^^^ (y &&& z)

def sha256BigSigma0 (x : Nat) : Nat := rotr32 x 2 ^^^ rotr32 x 13 ^^^ rotr32 x 22

def sha256BigSigma1 (x : Nat) : Nat := rotr32 x 6 ^^^ rotr32 x 11 ^^^ rotr32 x 25

def sha256SmallSigma0 (x : Nat) : Nat := rotr32 x 7 ^^^ rotr32 x 18 ^^^ (x >>> 3)

def sha256SmallSigma1 (x : Nat) : Nat := rotr32 x 17 ^^^ rotr32 x 19 ^^^ (x >>> 10)

/-- The 64 SHA-256 round constants. -/
def sha256K : List Nat :=
  [1116352408, 1899447441, 3049323471, 3921009573, 961987163, 1508970993,
   2453635748, 2870763221, 3624381080, 310598401, 607225278, 1426881987,
   1925078388, 2162078206, 2614888103, 3248222580, 3835390401, 4022224774,
   264347078, 604807628, 770255983, 1249150122, 1555081692, 1996064986,
   2554220882, 2821834349, 2952996808, 3210313671, 3336571891, 3584528711,
   113926993, 338241895, 666307205, 773529912, 1294757372, 1396182291,
   1695183700, 1986661051, 2177026350, 2456956037, 2730485921, 2820302411,
   3259730800, 3345764771, 3516065817, 3600352804, 4094571909, 275423344,
   430227734, 506948616, 659060556, 883997877, 958139571, 1322822218,
   1537002063, 1747873779, 1955562222, 2024104815, 2227730452, 2361852424,
   2428436474, 2756734187, 3204031479, 3329325298]

/-- Working state of the compression function. -/
structure Sha256State where
  a : Nat
  b : Nat
  c : Nat
  d : Nat
  e : Nat
  f : Nat
  g : Nat
  h : Nat
deriving DecidableEq

/-- The SHA-256 initial hash value. -/
def sha256InitState : Sha256State :=
  ⟨1779033703, 3144134277, 1013904242, 2773480762,
   1359893119, 2600822924, 528734635, 1541459225⟩

/-- Message padding: append the 0x80 byte, zero bytes up to 56 mod 64,
and the 8-byte big-endian bit length. -/
def sha256Pad (msg : List Nat) : List Nat :=
  let L := msg.length
  let z := (120 - ((L + 1) % 64)) % 64
  let bits := 8 * L
  msg ++ [128] ++ List.replicate z 0 ++
    [(bits >>> 56) % 256, (bits >>> 48) % 256, (bits >>> 40) % 256,
     (bits >>> 32) % 256, (bits >>> 24) % 256, (bits >>> 16) % 256,
     (bits >>> 8) % 256, bits % 256]

/-- Big-endian grouping of bytes into 32-bit words. -/
def bytesToWords : List Nat → List Nat
  | b0 :: b1 :: b2 :: b3 :: rest =>
      (((b0 <<< 8 ||| b1) <<< 8 ||| b2) <<< 8 ||| b3) :: bytesToWords rest
  | _ => []

/-- Extension of the 16 block words to the 64-entry message schedule. -/
def sha256Schedule (ws : List Nat) : List Nat :=
  (List.range 48).foldl
    (fun acc _ =>
      let n := acc.length
      let s0 := sha256SmallSigma0 (acc.getD (n - 15) 0)
      let s1 := sha256SmallSigma1 (acc.getD (n - 2) 0)
      acc ++ [mask32 (acc.getD (n - 16) 0 + s0 + acc.getD (n - 7) 0 + s1)])
    ws

/-- One compression round. -/
def sha256Round (s : Sha256State) (kw : Nat × Nat) : Sha256State :=
  let t1 := mask32 (s.h + sha256BigSigma1 s.e + sha256Ch s.e s.f s.g + kw.1 + kw.2)
  let t2 := mask32 (sha256BigSigma0 s.a + sha256Maj s.a s.b s.c)
  ⟨mask32 (t1 + t2), s.a, s.b, s.c, mask32 (s.d + t1), s.e, s.f, s.g⟩

/-- Compression of one 16-word block into the running state. -/
def sha256Compress (st : Sha256State) (block : List Nat) : Sha256State :=
  let r := (sha256K.zip (sha256Schedule block)).foldl sha256Round st
  ⟨mask32 (st.a + r.a), mask32 (st.b + r.b), mask32 (st.c + r.c),
   mask32 (st.d + r.d), mask32 (st.e + r.e), mask32 (st.f + r.f),
   mask32 (st.g + r.g), mask32 (st.h + r.h)⟩

/-- Iteration of the compression function over the padded word
stream, 16 words at a time. -/
def sha256Blocks (st : Sha256State) : List Nat → Sha256State
  | x0 :: x1 :: x2 :: x3 :: x4 :: x5 :: x6 :: x7 ::
    x8 :: x9 :: x10 :: x11 :: x12 :: x13 :: x14 :: x15 :: rest =>
      sha256Blocks
        (sha256Compress st [x0, x1, x2, x3, x4, x5, x6, x7,
                            x8, x9, x10, x11, x12, x13, x14, x15]) rest
  | _ => st

/-- Big-endian byte decomposition of a 32-bit word. -/
def wordBytes (x : Nat) : List Nat :=
  [(x >>> 24) &&& 255, (x >>> 16) &&& 255, (x >>> 8) &&& 255, x &&& 255]

/-- The SHA-256 digest of a byte sequence, as 32 bytes. -/
def sha256 (msg : List Nat) : List Nat :=
  let st := sha256Blocks sha256InitState (bytesToWords (sha256Pad msg))
  wordBytes st.a ++ wordBytes st.b ++ wordBytes st.c ++ wordBytes st.d ++
  wordBytes st.e ++ wordBytes st.f ++ wordBytes st.g ++ wordBytes st.h

/-- UTF-8 encoding of one character, as produced by TextEncoder. -/
def utf8BytesOfChar (c : Char) : List Nat :=
  let n := c.toNat
  if n < 128 then [n]
  else if n < 2048 then [192 + n / 64, 128 + n % 64]
  else if n < 65536 then [224 + n / 4096, 128 + (n / 64) % 64, 128 + n % 64]
  else [240 + n / 262144, 128 + (n / 4096) % 64, 128 + (n / 64) % 64, 128 + n % 64]

/-- UTF-8 encoding of a string, as produced by TextEncoder.encode. -/
def strBytes (s : String) : List Nat :=
  (s.data.map utf8BytesOfChar).flatten

/-- One lowercase hexadecimal digit, as produced by
Number.prototype.toString(16). -/
def hexDigitChar (n : Nat) : Char :=
  if n < 10 then Char.ofNat (48 + n) else Char.ofNat (87 + n)

/-- Two lowercase hex digits of one byte, the padStart(2, zero)
rendering used by getHashedValue. -/
def byteToHex (b : Nat) : List Char :=
  [hexDigitChar (b / 16), hexDigitChar (b % 16)]

/-- src/lib/fbevents.ts lines 101-108: SHA-256 of the UTF-8 bytes of
the value, rendered as lowercase hexadecimal. -/
def getHashedValue (value : String) : String :=
  String.mk ((sha256 (strBytes value)).map byteToHex).flatten

/-! ### UserData and hashUserData (src/lib/fbevents.ts) -/

/-- src/lib/fbevents.ts lines 3-19: the UserData interface. -/
structure UserData where
  em : Option (List String) := none
  ph : Option (List String) := none
  fn : Option (List String) := none
  ln : Option (List String) := none
  ge : Option (List String) := none
  db : Option (List String) := none
  ct : Option (List String) := none
  st : Option (List String) := none
  zp : Option (List String) := none
  country : Option (List String) := none
  external_id : Option (List String) := none
  client_ip_address : Option String := none
  client_user_agent : Option String := none
  fbc : Option String := none
  fbp : Option String := none
deriving DecidableEq

/-- Canonicalisation of an email before hashing: trim and lowercase
(line 147). -/
def canonEm (s : String) : String := jsToLower (jsTrim s)

/-- Canonicalisation of a phone number: remove non-digits (line 153). -/
def canonPh (s : String) : String := jsStripNonDigits s

/-- Canonicalisation of a first name: trim and lowercase (line 159). -/
def canonFn (s : String) : String := jsToLower (jsTrim s)

/-- Canonicalisation of a last name: trim and lowercase (line 165). -/
def canonLn (s : String) : String := jsToLower (jsTrim s)

/-- Canonicalisation of a gender value: trim, lowercase, first
character (line 171). -/
def canonGe (s : String) : String := jsCharAt0 (jsToLower (jsTrim s))

/-- Canonicalisation of a birth date: remove non-digits (line 177). -/
def canonDb (s : String) : String := jsStripNonDigits s

/-- Canonicalisation of a city: trim, lowercase, remove whitespace
(line 183). -/
def canonCt (s : String) : String := jsStripWhitespace (jsToLower (jsTrim s))

/-- Canonicalisation of a state: trim, lowercase, strip
non-alphanumerics (line 190). -/
def canonSt (s : String) : String := jsStripNonAlphanum (jsToLower (jsTrim s))

/-- Canonicalisation of a zip code: trim, remove whitespace, case
preserved (line 196). -/
def canonZp (s : String) : String := jsStripWhitespace (jsTrim s)

/-- Canonicalisation of a country code: trim and lowercase
(line 202). -/
def canonCountry (s : String) : String := jsToLower (jsTrim s)

/-- One sensitive field of hashUserData: the source hashes the array
elementwise when the field is present and non-empty, and copies the
field unchanged otherwise. -/
def hashedField (canon : String → String) : Option (List String) → Option (List String)
  | some l => if 0 < l.length then some (l.map (fun s => getHashedValue (canon s))) else some l
  | none => none

/-- src/lib/fbevents.ts lines 141-208: hashUserData.  Starts from a
copy of the input and replaces each sensitive multi-valued field by
its elementwise hash; external_id, fbc, fbp, client_ip_address and
client_user_agent are left untouched by design. -/
def hashUserData (u : UserData) : UserData :=
  { u with
    em := hashedField canonEm u.em
    ph := hashedField canonPh u.ph
    fn := hashedField canonFn u.fn
    ln := hashedField canonLn u.ln
    ge := hashedField canonGe u.ge
    db := hashedField canonDb u.db
    ct := hashedField canonCt u.ct
    st := hashedField canonSt u.st
    zp := hashedField canonZp u.zp
    country := hashedField canonCountry u.country }

/-! ### JavaScript objects as association lists -/

/-- A JavaScript runtime value, as far as the dispatcher inspects
values (strings for tracking parameters, numbers for monetary custom
data, booleans, null). -/
inductive JsVal where
  | str (s : String)
  | num (q : Rat)
  | boolV (b : Bool)
  | nullV
deriving DecidableEq

/-- JavaScript truthiness of a value. -/
def JsVal.truthy : JsVal → Bool
  | .str s => s ≠ ""
  | .num q => q ≠ 0
  | .boolV b => b
  | .nullV => false

/-- The cast (as string) the dispatcher applies to a custom-data
fbclid value; the code assumes a string there. -/
def JsVal.asString : JsVal → String
  | .str s => s
  | _ => ""

/-- Property read on an object modelled as an association list. -/
def jget {α : Type} : List (String × α) → String → Option α
  | [], _ => none
  | p :: rest, k => if p.1 = k then some p.2 else jget rest k

/-- The delete operator on an object key. -/
def jdel {α : Type} (o : List (String × α)) (k : String) : List (String × α) :=
  o.filter (fun p => p.1 != k)

/-- Object spread of b over a, written in the source as a literal with
a first and b second: on lookup the entries of b win. -/
def jspread {α : Type} (a b : List (String × α)) : List (String × α) :=
  b ++ a

/-! ### sendServerEvent (src/lib/fbevents.ts lines 210-348) -/

/-- src/lib/fbevents.ts line 95: the dataset id, an environment value
with a hard-coded non-empty fallback. -/
def DATASET_ID (env : Option String) : String :=
  jsOrStr env "701320582382618"

/-- src/lib/fbevents.ts line 96: the access token, an environment
value with a hard-coded non-empty fallback. -/
def ACCESS_TOKEN (env : Option String) : String :=
  jsOrStr env "EAAVZA2wID1AEBO0NupBzTMuPbn4GBZCInGDNw7Spd2a7DdKcmUgKcjhvbZC67ZCbEgBfZBdm2UiCnPrTiM0JJUdvWkPvNHyeXxOE8JpRi7I0OUlrCydePLGt7F4okAUJw0vxMJguom3yXHwLhahbZBcU2rnYC4dM74AQijN7m4jtQ6hHdTQpJWgxRTk0sOSghZBrwZDZD"

/-- Decision taken by the guard at src/lib/fbevents.ts lines 220-223:
either the configuration-error early return (before any network
traffic) or continuation into payload building and the outbound
call. -/
inductive DispatchDecision where
  | configError (msg : String)
  | proceed
deriving DecidableEq

/-- src/lib/fbevents.ts lines 220-223: the missing-credentials guard
of sendServerEvent. -/
def sendServerEventGate (accessToken datasetId : String) : DispatchDecision :=
  if accessToken = "" ∨ datasetId = "" then
    .configError "Missing Facebook API credentials on server."
  else .proceed

/-- Result of the fbclid extraction of sendServerEvent (lines
236-263): the resolved fbc candidate together with the cleaned
urlParameters and customData objects. -/
structure CustomDataMerge where
  fbcValue : Option String
  cleanedUrl : List (String × String)
  cleanedCustom : List (String × JsVal)
  finalCustomData : List (String × JsVal)

/-- src/lib/fbevents.ts lines 243-250, priority 1 of the fbclid
handling: a truthy fbclid inside urlParameters becomes the fbc
candidate and is removed from the url parameters. -/
def fbclidStep1 (userFbc : Option String) (url : List (String × String)) :
    Option String × List (String × String) :=
  match jget url "fbclid" with
  | some s => if s = "" then (userFbc, url) else (some s, jdel url "fbclid")
  | none => (userFbc, url)

/-- src/lib/fbevents.ts lines 252-261, priority 2 of the fbclid
handling: a truthy fbclid inside customData is used only when the
candidate is still falsy, and the key is removed from customData in
every case in which it is present. -/
def fbclidStep2 (cand : Option String) (customData : List (String × JsVal)) :
    Option String × List (String × JsVal) :=
  match jget customData "fbclid" with
  | some v =>
      if jsTruthyOpt cand = false ∧ v.truthy then
        (some v.asString, jdel customData "fbclid")
      else (cand, jdel customData "fbclid")
  | none => (cand, customData)

/-- src/lib/fbevents.ts lines 236-296: fbclid priority handling and
the construction of the final custom_data object.  The remaining url
parameters are spread last over the cleaned custom data when the url
parameter object is non-empty. -/
def mergeCustomData (userFbc : Option String)
    (customData : List (String × JsVal))
    (urlParameters : Option (List (String × String))) : CustomDataMerge :=
  let s1 := fbclidStep1 userFbc (urlParameters.getD [])
  let s2 := fbclidStep2 s1.1 customData
  let urlObj : List (String × JsVal) := s1.2.map (fun p => (p.1, JsVal.str p.2))
  ⟨s2.1, s1.2, s2.2, if s1.2 = [] then s2.2 else jspread s2.2 urlObj⟩

/-- src/lib/fbevents.ts lines 265-273: the fbc field of the enhanced
user data, which keeps the incoming userData.fbc unless the resolved
fbclid candidate is truthy. -/
def sendEventResolvedFbc (userFbc : Option String)
    (customData : List (String × JsVal))
    (urlParameters : Option (List (String × String))) : Option String :=
  match (mergeCustomData userFbc customData urlParameters).fbcValue with
  | some s => if s = "" then userFbc else some s
  | none => userFbc

/-- src/lib/fbevents.ts lines 307-309: the event_id attached to the
outbound payload, present exactly when the eventId argument is
truthy. -/
def payloadEventId (eventId : Option String) : Option String :=
  match eventId with
  | some s => if s = "" then none else some s
  | none => none

/-- The per-route deduplication identifier: every tracking route
initialises eventId to the placeholder and overwrites it with
body.eventId only when that is truthy
(src/app/api/track/viewcontent/route.ts lines 139-145). -/
def routeEventId (bodyEventId : Option String) : String :=
  jsOrStr bodyEventId "N/A"

/-- Deduplication identifier attached to the outbound payload for a
tracking-route submission: the route value passed through the
dispatcher attachment. -/
def routePayloadEventId (bodyEventId : Option String) : Option String :=
  payloadEventId (some (routeEventId bodyEventId))

/-! ### Outbound response interpretation (src/lib/fbevents.ts lines
313-347) -/

/-- The response-body fields interpreted by sendServerEvent. -/
structure FbRespBody where
  events_received : Option Int
  fbtrace_id : Option String
deriving DecidableEq

/-- An HTTP response from the outbound call: the ok flag (2xx status)
and the parsed JSON body. -/
structure FbResp where
  ok : Bool
  body : FbRespBody
deriving DecidableEq

/-- The structured result sendServerEvent returns for the outbound
call: non-2xx yields an error with the response body; a confirmation
signal yields success with the trace id; a 2xx without confirmation
yields a warning with the response body; an exception during the call
or parsing is caught and yields an error with the message. -/
inductive DeliveryOutcome where
  | errBody (body : FbRespBody) (event_id : Option String)
  | success (fbtrace_id : Option String) (event_id : Option String)
  | warnBody (body : FbRespBody) (event_id : Option String)
  | errMsg (msg : String) (event_id : String)
deriving DecidableEq

/-- src/lib/fbevents.ts lines 313-347: interpretation of the outbound
call.  The call argument is the combined fetch plus response.json
step; a thrown exception is its error case. -/
def interpretFbResponse (eventId : Option String)
    (call : Except String FbResp) : DeliveryOutcome :=
  match call with
  | .error m => .errMsg m (jsOrStr eventId "N/A")
  | .ok r =>
      if r.ok = false then .errBody r.body eventId
      else if r.body.events_received = some 1 ∨ jsTruthyOpt r.body.fbtrace_id then
        .success r.body.fbtrace_id eventId
      else .warnBody r.body eventId

/-! ### getGeolocationData (src/lib/fbevents.ts lines 110-139) -/

/-- The response-body fields of the ipdata.co lookup that the enricher
reads. -/
structure GeoBody where
  city : Option String
  region_code : Option String
  postal : Option String
  country_code : Option String
deriving DecidableEq

/-- An HTTP response from the geolocation lookup. -/
structure GeoResp where
  ok : Bool
  body : GeoBody
deriving DecidableEq

/-- The object returned by getGeolocationData: either the empty object
(no own keys) or the four-key fragment whose values may individually
be undefined. -/
inductive GeoResult where
  | emptyObj
  | fragment (ct st zp country : Option (List String))
deriving DecidableEq

/-- The ct component of the returned object. -/
def GeoResult.ctField : GeoResult → Option (List String)
  | .emptyObj => none
  | .fragment c _ _ _ => c

/-- The st component of the returned object. -/
def GeoResult.stField : GeoResult → Option (List String)
  | .emptyObj => none
  | .fragment _ s _ _ => s

/-- The zp component of the returned object. -/
def GeoResult.zpField : GeoResult → Option (List String)
  | .emptyObj => none
  | .fragment _ _ z _ => z

/-- The country component of the returned object. -/
def GeoResult.countryField : GeoResult → Option (List String)
  | .emptyObj => none
  | .fragment _ _ _ k => k

/-- src/lib/fbevents.ts lines 110-139: getGeolocationData.  The call
argument models the fetch plus response.json step; its error case is
a thrown exception, caught by the surrounding try block. -/
def getGeolocationData (ipAddress : String) (apiKey : Option String)
    (call : Except String GeoResp) : GeoResult :=
  if ipAddress = "" ∨ jsTruthyOpt apiKey = false then .emptyObj
  else
    match call with
    | .error _ => .emptyObj
    | .ok r =>
        if r.ok = false then .emptyObj
        else
          .fragment
            (match r.body.city with
             | some c => if c = "" then none else some [c]
             | none => none)
            (match r.body.region_code with
             | some c => if c = "" then none else some [c]
             | none => none)
            (match r.body.postal with
             | some c => if c = "" then none else some [c]
             | none => none)
            (match r.body.country_code with
             | some c => if c = "" then none else some [jsToLower c]
             | none => none)

/-! ### Cookie versus body merge of fbc and fbp in the tracking routes
(src/app/api/track/viewcontent/route.ts lines 179-191 and the
identical block of every other route) -/

/-- The ternary merging one identifier: the cookie value is taken
whenever it is truthy and the client value is falsy or different from
it; the client value is kept otherwise. -/
def routeMergeId (clientVal cookieVal : Option String) : Option String :=
  if jsTruthyOpt cookieVal ∧ (jsTruthyOpt clientVal = false ∨ clientVal ≠ cookieVal) then
    cookieVal
  else clientVal

/-- End-to-end resolved fbc of a tracking-route request: the route
merge of the client value with the first-party cookie, then the
dispatcher fbclid resolution. -/
def trackRouteResolvedFbc (clientFbc cookieFbc : Option String)
    (customData : List (String × JsVal))
    (urlParameters : Option (List (String × String))) : Option String :=
  sendEventResolvedFbc (routeMergeId clientFbc cookieFbc) customData urlParameters

/-! ### Validators

Typed embeddings of validateEcommerceAddToCartData
(src/unnamed/part_003 lines 78-233), validateEcommerceCheckoutData
(src/app/api/track/initiatecheckout/route.ts lines 71-207) and
validateEcommercePurchaseData (src/unnamed/part_005 lines 107-334).
Only the isValid flag and the error list are modelled; the sanitized
output mirrors the input and is not needed by any claim.  The dynamic
interpolated fragments of the error messages are omitted: the claims
only rely on which checks add an error. -/

/-- Outcome of a validator: the isValid flag and the error list. -/
structure ValidationOutcome where
  isValid : Bool
  errors : List String
deriving DecidableEq

/-- A positive integer in the sense of the source checks combining a
positivity test with Number.isInteger. -/
def isPosInt (q : Rat) : Prop := 0 < q ∧ q.den = 1

instance (q : Rat) : Decidable (isPosInt q) := by
  unfold isPosInt
  infer_instance

/-- A line item of the AddToCart contents array; only the three
validated fields are modelled. -/
structure AddToCartItem where
  id : String
  quantity : Rat
  item_price : Rat
deriving DecidableEq

/-- The AddToCart customData fields inspected by the validator. -/
structure AddToCartData where
  content_ids : Option (List String) := none
  content_name : Option String := none
  value : Option Rat := none
  currency : Option String := none
  quantity : Option Rat := none
  availability : Option String := none
  condition : Option String := none
  contents : Option (List AddToCartItem) := none
  predicted_ltv : Option Rat := none
deriving DecidableEq

/-- Sum of the quantities of an AddToCart contents array (reduce with
initial value 0, part_003 line 170). -/
def atcSumQuantity (l : List AddToCartItem) : Rat :=
  l.foldl (fun s i => s + i.quantity) 0

/-- Sum of item_price times quantity of an AddToCart contents array
(part_003 line 169). -/
def atcSumValue (l : List AddToCartItem) : Rat :=
  l.foldl (fun s i => s + i.item_price * i.quantity) 0

/-- Per-item checks of the AddToCart validator (part_003 lines
140-150). -/
def addToCartItemErrors (it : AddToCartItem) : List String :=
  (if jsTrim it.id = "" then
    ["contents[].id is required and must be a non-empty string"] else []) ++
  (if ¬ isPosInt it.quantity then
    ["contents[].quantity must be a positive integer"] else []) ++
  (if it.item_price < 0 then
    ["contents[].item_price must be a positive number"] else [])

/-- Per-field checks of the AddToCart validator (part_003 lines
92-160), in source order. -/
def addToCartFieldErrors (d : AddToCartData) : List String :=
  (match d.content_ids with
   | none => ["content_ids is required and must be a non-empty array of product IDs"]
   | some l =>
      if l = [] then
        ["content_ids is required and must be a non-empty array of product IDs"]
      else l.flatMap (fun id =>
        if jsTrim id = "" then ["content_ids[] must be a non-empty string"] else [])) ++
  (match d.content_name with
   | none => ["content_name is required and must be a non-empty string"]
   | some s => if jsTrim s = "" then
      ["content_name is required and must be a non-empty string"] else []) ++
  (match d.value with
   | none => ["value is required and must be a positive number representing total value being added"]
   | some v => if v ≤ 0 then
      ["value is required and must be a positive number representing total value being added"] else []) ++
  (match d.currency with
   | none => ["currency is required and must be a valid 3-letter currency code"]
   | some s => if s.length ≠ 3 then
      ["currency is required and must be a valid 3-letter currency code"] else []) ++
  (match d.quantity with
   | none => ["quantity is required and must be a positive integer"]
   | some q => if ¬ isPosInt q then
      ["quantity is required and must be a positive integer"] else []) ++
  (match d.availability with
   | some s =>
      if s ≠ "" ∧ ¬ ["in stock", "out of stock", "preorder", "available for order",
        "discontinued"].contains s then
        ["availability must be one of the allowed values"] else []
   | none => []) ++
  (match d.condition with
   | some s =>
      if s ≠ "" ∧ ¬ ["new", "refurbished", "used"].contains s then
        ["condition must be one of: new, refurbished, used"] else []
   | none => []) ++
  (match d.contents with
   | some l => l.flatMap addToCartItemErrors
   | none => []) ++
  (match d.predicted_ltv with
   | some v => if v < 0 then
      ["predicted_ltv must be a positive number if provided"] else []
   | none => [])

/-- src/unnamed/part_003 lines 78-233: validateEcommerceAddToCartData.
After the per-field checks, when a non-empty contents array is
present, the computed total value must match the asserted value
within the absolute tolerance 0.01 and the computed total quantity
must exactly equal the asserted quantity. -/
def validateEcommerceAddToCartData (d : AddToCartData) : ValidationOutcome :=
  let errs1 := addToCartFieldErrors d
  if errs1 ≠ [] then ⟨false, errs1⟩
  else
    match d.contents with
    | some l =>
        if l ≠ [] then
          let errs2 :=
            (if (1 : Rat)/100 < |atcSumValue l - d.value.getD 0| then
              ["value does not match calculated total from contents"] else []) ++
            (if atcSumQuantity l ≠ d.quantity.getD 0 then
              ["quantity does not match calculated total from contents"] else [])
          if errs2 ≠ [] then ⟨false, errs2⟩ else ⟨true, []⟩
        else ⟨true, []⟩
    | none => ⟨true, []⟩

/-- A cart item of the InitiateCheckout contents array; the validated
fields are id, quantity, item_price and the optional title. -/
structure CheckoutItem where
  id : String
  quantity : Rat
  item_price : Rat
  title : Option String := none
deriving DecidableEq

/-- The InitiateCheckout customData fields inspected by the
validator. -/
structure CheckoutData where
  contents : Option (List CheckoutItem) := none
  value : Option Rat := none
  currency : Option String := none
  num_items : Option Rat := none
  shipping_cost : Option Rat := none
  tax_amount : Option Rat := none
  discount_amount : Option Rat := none
  delivery_category : Option String := none
deriving DecidableEq

/-- Sum of the quantities of a checkout cart (route line 150). -/
def icSumQuantity (l : List CheckoutItem) : Rat :=
  l.foldl (fun s i => s + i.quantity) 0

/-- Sum of item_price times quantity of a checkout cart (route line
151). -/
def icSumValue (l : List CheckoutItem) : Rat :=
  l.foldl (fun s i => s + i.item_price * i.quantity) 0

/-- Per-item checks of the InitiateCheckout validator (route lines
95-109). -/
def checkoutItemErrors (it : CheckoutItem) : List String :=
  (if jsTrim it.id = "" then
    ["contents[].id is required and must be a non-empty string"] else []) ++
  (if ¬ isPosInt it.quantity then
    ["contents[].quantity must be a positive integer"] else []) ++
  (if it.item_price < 0 then
    ["contents[].item_price must be a positive number"] else []) ++
  (match it.title with
   | some t => if t ≠ "" ∧ jsTrim t = "" then
      ["contents[].title must be a non-empty string if provided"] else []
   | none => [])

/-- Per-field checks of the InitiateCheckout validator (route lines
84-142), in source order. -/
def checkoutFieldErrors (d : CheckoutData) : List String :=
  (match d.contents with
   | none => ["contents is required and must be a non-empty array of cart items"]
   | some l =>
      if l = [] then ["contents is required and must be a non-empty array of cart items"]
      else l.flatMap checkoutItemErrors) ++
  (match d.value with
   | none => ["value is required and must be a positive number representing total cart value"]
   | some v => if v ≤ 0 then
      ["value is required and must be a positive number representing total cart value"] else []) ++
  (match d.currency with
   | none => ["currency is required and must be a valid 3-letter currency code"]
   | some s => if s.length ≠ 3 then
      ["currency is required and must be a valid 3-letter currency code"] else []) ++
  (match d.num_items with
   | none => ["num_items is required and must be a positive integer representing total quantity"]
   | some q => if ¬ isPosInt q then
      ["num_items is required and must be a positive integer representing total quantity"] else []) ++
  (match d.shipping_cost with
   | some v => if v < 0 then ["shipping_cost must be a positive number if provided"] else []
   | none => []) ++
  (match d.tax_amount with
   | some v => if v < 0 then ["tax_amount must be a positive number if provided"] else []
   | none => []) ++
  (match d.discount_amount with
   | some v => if v < 0 then ["discount_amount must be a positive number if provided"] else []
   | none => []) ++
  (match d.delivery_category with
   | some s =>
      if s ≠ "" ∧ ¬ ["standard", "express", "overnight", "pickup", "digital"].contains s then
        ["delivery_category must be one of the allowed values"] else []
   | none => [])

/-- src/app/api/track/initiatecheckout/route.ts lines 71-207:
validateEcommerceCheckoutData.  After the per-field checks, the
computed total quantity must exactly equal num_items and the computed
cart value must match the asserted value within the absolute
tolerance 0.01. -/
def validateEcommerceCheckoutData (d : CheckoutData) : ValidationOutcome :=
  let errs1 := checkoutFieldErrors d
  if errs1 ≠ [] then ⟨false, errs1⟩
  else
    let l := d.contents.getD []
    let errs2 :=
      (if 0 < |icSumQuantity l - d.num_items.getD 0| then
        ["num_items does not match calculated total quantity"] else []) ++
      (if (1 : Rat)/100 < |icSumValue l - d.value.getD 0| then
        ["value does not match calculated cart total"] else [])
    if errs2 ≠ [] then ⟨false, errs2⟩ else ⟨true, []⟩

/-- A purchased product of the Purchase contents array; the validated
fields are id, quantity, item_price and the optional original_price
and discount_amount. -/
structure PurchaseItem where
  id : String
  quantity : Rat
  item_price : Rat
  original_price : Option Rat := none
  discount_amount : Option Rat := none
deriving DecidableEq

/-- The Purchase customData fields inspected by the validator. -/
structure PurchaseData where
  order_id : Option String := none
  value : Option Rat := none
  currency : Option String := none
  num_items : Option Rat := none
  contents : Option (List PurchaseItem) := none
  shipping_cost : Option Rat := none
  tax_amount : Option Rat := none
  discount_amount : Option Rat := none
  order_total : Option Rat := none
  payment_method : Option String := none
  payment_status : Option String := none
  delivery_category : Option String := none
  customer_type : Option String := none
  order_source : Option String := none
  discount_type : Option String := none
deriving DecidableEq

/-- Sum of the quantities of a Purchase contents array (part_005 line
223). -/
def purchaseSumQuantity (l : List PurchaseItem) : Rat :=
  l.foldl (fun s i => s + i.quantity) 0

/-- Sum of item_price times quantity of a Purchase contents array
(part_005 line 224). -/
def purchaseSumSubtotal (l : List PurchaseItem) : Rat :=
  l.foldl (fun s i => s + i.item_price * i.quantity) 0

/-- part_005 line 240: the total the validator derives from the line
items and the financial fields. -/
def purchaseExpectedTotal (d : PurchaseData) : Rat :=
  purchaseSumSubtotal (d.contents.getD []) + d.shipping_cost.getD 0 +
    d.tax_amount.getD 0 - d.discount_amount.getD 0

/-- Per-item checks of the Purchase validator (part_005 lines
155-173). -/
def purchaseItemErrors (it : PurchaseItem) : List String :=
  (if jsTrim it.id = "" then
    ["contents[].id is required and must be a non-empty string"] else []) ++
  (if ¬ isPosInt it.quantity then
    ["contents[].quantity must be a positive integer"] else []) ++
  (if it.item_price < 0 then
    ["contents[].item_price must be a positive number"] else []) ++
  (match it.original_price with
   | some o => if o < it.item_price then
      ["contents[].original_price must be a number greater or equal to item_price if provided"] else []
   | none => []) ++
  (match it.discount_amount with
   | some v => if v < 0 then
      ["contents[].discount_amount must be a positive number if provided"] else []
   | none => [])

/-- Per-field checks of the Purchase validator (part_005 lines
132-216), in source order. -/
def purchaseFieldErrors (d : PurchaseData) : List String :=
  (match d.order_id with
   | none => ["order_id is required and must be a non-empty string for purchase deduplication"]
   | some s => if jsTrim s = "" then
      ["order_id is required and must be a non-empty string for purchase deduplication"] else []) ++
  (match d.value with
   | none => ["value is required and must be a positive number representing total purchase value"]
   | some v => if v ≤ 0 then
      ["value is required and must be a positive number representing total purchase value"] else []) ++
  (match d.currency with
   | none => ["currency is required and must be a valid 3-letter currency code"]
   | some s => if s.length ≠ 3 then
      ["currency is required and must be a valid 3-letter currency code"] else []) ++
  (match d.num_items with
   | none => ["num_items is required and must be a positive integer representing total quantity purchased"]
   | some q => if ¬ isPosInt q then
      ["num_items is required and must be a positive integer representing total quantity purchased"] else []) ++
  (match d.contents with
   | none => ["contents is required and must be a non-empty array of purchased products"]
   | some l =>
      if l = [] then ["contents is required and must be a non-empty array of purchased products"]
      else l.flatMap purchaseItemErrors) ++
  (match d.shipping_cost with
   | some v => if v < 0 then ["shipping_cost must be a positive number if provided"] else []
   | none => []) ++
  (match d.tax_amount with
   | some v => if v < 0 then ["tax_amount must be a positive number if provided"] else []
   | none => []) ++
  (match d.discount_amount with
   | some v => if v < 0 then ["discount_amount must be a positive number if provided"] else []
   | none => []) ++
  (match d.order_total with
   | some t =>
      (match d.value with
       | some v => if t < v then
          ["order_total must be a number greater or equal to value if provided"] else []
       | none => [])
   | none => []) ++
  (match d.payment_method with
   | some s =>
      if s ≠ "" ∧ ¬ ["credit_card", "debit_card", "paypal", "apple_pay", "google_pay",
        "bank_transfer", "boleto", "pix", "other"].contains s then
        ["payment_method must be one of the allowed values"] else []
   | none => []) ++
  (match d.payment_status with
   | some s =>
      if s ≠ "" ∧ ¬ ["completed", "pending", "failed", "refunded",
        "partially_refunded"].contains s then
        ["payment_status must be one of the allowed values"] else []
   | none => []) ++
  (match d.delivery_category with
   | some s =>
      if s ≠ "" ∧ ¬ ["standard", "express", "overnight", "pickup", "digital",
        "subscription"].contains s then
        ["delivery_category must be one of the allowed values"] else []
   | none => []) ++
  (match d.customer_type with
   | some s =>
      if s ≠ "" ∧ ¬ ["new", "returning", "vip", "wholesale"].contains s then
        ["customer_type must be one of the allowed values"] else []
   | none => []) ++
  (match d.order_source with
   | some s =>
      if s ≠ "" ∧ ¬ ["website", "mobile_app", "social_media", "marketplace", "phone",
        "in_store"].contains s then
        ["order_source must be one of the allowed values"] else []
   | none => []) ++
  (match d.discount_type with
   | some s =>
      if s ≠ "" ∧ ¬ ["percentage", "fixed_amount", "shipping", "bogo", "bulk"].contains s then
        ["discount_type must be one of the allowed values"] else []
   | none => [])

/-- src/unnamed/part_005 lines 107-334: validateEcommercePurchaseData.
After the per-field checks, the computed total quantity must exactly
equal num_items; the comparison of the supplied value against the
expected total (subtotal plus shipping and tax minus discount, with
tolerance 0.01 at line 241) is emitted only as a console warning at
lines 242-245 and adds no error by design. -/
def validateEcommercePurchaseData (d : PurchaseData) : ValidationOutcome :=
  let errs1 := purchaseFieldErrors d
  if errs1 ≠ [] then ⟨false, errs1⟩
  else
    let items := d.contents.getD []
    let errs2 :=
      if purchaseSumQuantity items ≠ d.num_items.getD 0 then
        ["num_items does not match calculated total quantity"] else []
    if errs2 ≠ [] then ⟨false, errs2⟩ else ⟨true, []⟩

/-! ### Supporting lemmas for the hashing claims -/

/-- A lowercase hexadecimal digit. -/
def isLowerHexDigit (c : Char) : Bool :=
  (c.isDigit ∨ ('a' ≤ c ∧ c ≤ 'f') : Prop)

theorem hashedField_eq_map (canon : String → String) (v : Option (List String)) :
    hashedField canon v = Option.map (List.map (fun s => getHashedValue (canon s))) v := by
  cases v with
  | none => rfl
  | some l => cases l <;> simp [hashedField]

theorem hexDigitChar_isLowerHex (n : Nat) (h : n < 16) :
    isLowerHexDigit (hexDigitChar n) = true := by
  interval_cases n <;> decide

theorem byteToHex_all_hex (b : Nat) (h : b < 256) :
    (byteToHex b).all isLowerHexDigit = true := by
  have h1 : b / 16 < 16 := by omega
  have h2 : b % 16 < 16 := Nat.mod_lt _ (by norm_num)
  simp [byteToHex, hexDigitChar_isLowerHex _ h1, hexDigitChar_isLowerHex _ h2]

theorem wordBytes_lt (x : Nat) : ∀ b ∈ wordBytes x, b < 256 := by
  intro b hb
  simp [wordBytes] at hb
  rcases hb with h | h | h | h <;> subst h <;> exact Nat.lt_succ_of_le Nat.and_le_right

theorem sha256_mem_lt (msg : List Nat) : ∀ b ∈ sha256 msg, b < 256 := by
  intro b hb
  simp only [sha256] at hb
  repeat
    first
    | exact wordBytes_lt _ _ hb
    | rcases List.mem_append.mp hb with hb | hb

theorem all_flatten_hex (bs : List Nat) (h : ∀ b ∈ bs, b < 256) :
    ((bs.map byteToHex).flatten.all isLowerHexDigit) = true := by
  induction bs with
  | nil => rfl
  | cons b rest ih =>
      have hb : b < 256 := h b (by simp)
      have hr : ∀ x ∈ rest, x < 256 := fun x hx => h x (by simp [hx])
      simp [List.all_append, byteToHex_all_hex b hb, ih hr]

theorem flatten_map_byteToHex_length (bs : List Nat) :
    ((bs.map byteToHex).flatten).length = 2 * bs.length := by
  induction bs with
  | nil => rfl
  | cons b rest ih => simp [byteToHex, ih]; omega

theorem sha256_length (msg : List Nat) : (sha256 msg).length = 32 := by
  simp [sha256, wordBytes]

/-- Claim C4: the PII hasher replaces each sensitive multi-valued
field elementwise by the lowercase-hex SHA-256 digest of its
per-field canonicalised form, preserving order and length (the
elementwise List.map), leaving absent fields absent (the Option.map);
canonicalising the email " Foo@Bar.com " yields "foo@bar.com", so the
two hash identically, and the digest of "foo@bar.com" matches the
externally computed SHA-256 test vector. -/
theorem claim_C4_hashing :
    (∀ u : UserData,
      (hashUserData u).em = Option.map (List.map (fun s => getHashedValue (canonEm s))) u.em ∧
      (hashUserData u).ph = Option.map (List.map (fun s => getHashedValue (canonPh s))) u.ph ∧
      (hashUserData u).fn = Option.map (List.map (fun s => getHashedValue (canonFn s))) u.fn ∧
      (hashUserData u).ln = Option.map (List.map (fun s => getHashedValue (canonLn s))) u.ln ∧
      (hashUserData u).ge = Option.map (List.map (fun s => getHashedValue (canonGe s))) u.ge ∧
      (hashUserData u).db = Option.map (List.map (fun s => getHashedValue (canonDb s))) u.db ∧
      (hashUserData u).ct = Option.map (List.map (fun s => getHashedValue (canonCt s))) u.ct ∧
      (hashUserData u).st = Option.map (List.map (fun s => getHashedValue (canonSt s))) u.st ∧
      (hashUserData u).zp = Option.map (List.map (fun s => getHashedValue (canonZp s))) u.zp ∧
      (hashUserData u).country =
        Option.map (List.map (fun s => getHashedValue (canonCountry s))) u.country) ∧
    (∀ s : String, (getHashedValue s).data.all isLowerHexDigit = true) ∧
    (∀ s : String, (getHashedValue s).length = 64) ∧
    canonEm " Foo@Bar.com " = "foo@bar.com" ∧
    getHashedValue (canonEm " Foo@Bar.com ") = getHashedValue "foo@bar.com" ∧
    getHashedValue "foo@bar.com" =
      "0c7e6a405862e402eb76a70f8a26fc732d07c32931e9fae9ab1582911d2e8a3b" := by
  refine ⟨fun u => ?_, fun s => ?_, fun s => ?_, by decide, ?_, by decide⟩
  · exact ⟨hashedField_eq_map _ _, hashedField_eq_map _ _, hashedField_eq_map _ _,
      hashedField_eq_map _ _, hashedField_eq_map _ _, hashedField_eq_map _ _,
      hashedField_eq_map _ _, hashedField_eq_map _ _, hashedField_eq_map _ _,
      hashedField_eq_map _ _⟩
  · exact all_flatten_hex _ (sha256_mem_lt _)
  · show (((sha256 (strBytes s)).map byteToHex).flatten).length = 64
    rw [flatten_map_byteToHex_length, sha256_length]
  · rw [show canonEm " Foo@Bar.com " = "foo@bar.com" from by decide]

/-- Claim C5: the PII-hashing step leaves fbc, fbp,
client_ip_address, client_user_agent and external_id unchanged for
every input identity block. -/
theorem claim_C5_passthrough :
    ∀ u : UserData,
      (hashUserData u).fbc = u.fbc ∧
      (hashUserData u).fbp = u.fbp ∧
      (hashUserData u).client_ip_address = u.client_ip_address ∧
      (hashUserData u).client_user_agent = u.client_user_agent ∧
      (hashUserData u).external_id = u.external_id := by
  intro u
  exact ⟨rfl, rfl, rfl, rfl, rfl⟩

/-- Claim C6: the outbound-call interpretation is tri-state.  A
non-2xx status yields the error outcome carrying the response body; a
2xx response with events_received equal to one or a truthy fbtrace_id
yields the success outcome carrying the trace identifier; a 2xx
response with neither signal yields the warning outcome carrying the
body; an exception thrown by the call or by response parsing is
caught and becomes the error outcome carrying the exception
message. -/
theorem claim_C6_tristate :
    ∀ (eid : Option String) (r : FbResp) (m : String),
      (r.ok = false → interpretFbResponse eid (.ok r) = .errBody r.body eid) ∧
      (r.ok = true →
        (r.body.events_received = some 1 ∨ jsTruthyOpt r.body.fbtrace_id = true) →
        interpretFbResponse eid (.ok r) = .success r.body.fbtrace_id eid) ∧
      (r.ok = true → r.body.events_received ≠ some 1 →
        jsTruthyOpt r.body.fbtrace_id = false →
        interpretFbResponse eid (.ok r) = .warnBody r.body eid) ∧
      interpretFbResponse eid (.error m) = .errMsg m (jsOrStr eid "N/A") := by
  intro eid r m
  refine ⟨fun hok => ?_, fun hok hsig => ?_, fun hok hn ht => ?_, rfl⟩
  · simp [interpretFbResponse, hok]
  · simp [interpretFbResponse, hok, hsig]
  · simp [interpretFbResponse, hok, hn, ht]

/-- Witness for claim C6 at concrete responses. -/
theorem claim_C6_witness :
    interpretFbResponse (some "E1") (.ok ⟨true, ⟨some 1, some "tr_1"⟩⟩) =
      .success (some "tr_1") (some "E1") ∧
    interpretFbResponse (some "E1") (.ok ⟨true, ⟨none, none⟩⟩) =
      .warnBody ⟨none, none⟩ (some "E1") ∧
    interpretFbResponse (some "E1") (.ok ⟨false, ⟨none, none⟩⟩) =
      .errBody ⟨none, none⟩ (some "E1") := by
  refine ⟨?_, ?_, ?_⟩
  · exact (claim_C6_tristate (some "E1") ⟨true, ⟨some 1, some "tr_1"⟩⟩ "x").2.1 rfl
      (Or.inl rfl)
  · exact (claim_C6_tristate (some "E1") ⟨true, ⟨none, none⟩⟩ "x").2.2.1 rfl
      (by decide) rfl
  · exact (claim_C6_tristate (some "E1") ⟨false, ⟨none, none⟩⟩ "x").1 rfl

/-- Claim C7: the geolocation enricher is a total function of its
inputs (it never throws) and returns the empty fragment when the IP
is empty, when the lookup key is not configured (absent or empty),
when the call throws, and when the response status is not 2xx; a
response field that is missing leaves the corresponding fragment
field absent. -/
theorem claim_C7_geo :
    ∀ (ip : String) (key : Option String) (call : Except String GeoResp),
      (ip = "" → getGeolocationData ip key call = .emptyObj) ∧
      (jsTruthyOpt key = false → getGeolocationData ip key call = .emptyObj) ∧
      (∀ e, call = .error e → getGeolocationData ip key call = .emptyObj) ∧
      (∀ r, call = .ok r → r.ok = false → getGeolocationData ip key call = .emptyObj) ∧
      (∀ r, call = .ok r →
        (r.body.city = none → (getGeolocationData ip key call).ctField = none) ∧
        (r.body.region_code = none → (getGeolocationData ip key call).stField = none) ∧
        (r.body.postal = none → (getGeolocationData ip key call).zpField = none) ∧
        (r.body.country_code = none →
          (getGeolocationData ip key call).countryField = none)) := by
  intro ip key call
  refine ⟨fun hip => ?_, fun hkey => ?_, fun e he => ?_, fun r hr hok => ?_,
    fun r hr => ⟨fun hc => ?_, fun hc => ?_, fun hc => ?_, fun hc => ?_⟩⟩
  · simp [getGeolocationData, hip]
  · simp [getGeolocationData, hkey]
  · subst he
    simp [getGeolocationData]
  · subst hr
    simp [getGeolocationData, hok]
  all_goals subst hr
  all_goals by_cases hip : ip = "" <;> by_cases hkey : jsTruthyOpt key = true <;>
    by_cases hok : r.ok = true <;>
    simp [getGeolocationData, hip, hkey, hok, hc, GeoResult.ctField,
      GeoResult.stField, GeoResult.zpField, GeoResult.countryField]

/-- Witness for claim C7 at concrete inputs. -/
theorem claim_C7_witness :
    getGeolocationData "" (some "k") (.ok ⟨true, ⟨some "SP", none, none, none⟩⟩) = .emptyObj ∧
    getGeolocationData "1.2.3.4" none (.ok ⟨true, ⟨some "SP", none, none, none⟩⟩) = .emptyObj ∧
    getGeolocationData "1.2.3.4" (some "k") (.error "timeout") = .emptyObj ∧
    getGeolocationData "1.2.3.4" (some "k") (.ok ⟨false, ⟨some "SP", none, none, none⟩⟩) = .emptyObj ∧
    (getGeolocationData "1.2.3.4" (some "k")
      (.ok ⟨true, ⟨some "SP", none, none, some "BR"⟩⟩)).stField = none := by
  refine ⟨?_, ?_, ?_, ?_, ?_⟩
  · exact (claim_C7_geo "" (some "k") _).1 rfl
  · exact (claim_C7_geo "1.2.3.4" none _).2.1 rfl
  · exact (claim_C7_geo "1.2.3.4" (some "k") _).2.2.1 "timeout" rfl
  · exact (claim_C7_geo "1.2.3.4" (some "k") _).2.2.2.1 _ rfl rfl
  · exact ((claim_C7_geo "1.2.3.4" (some "k") _).2.2.2.2 _ rfl).2.1 rfl

/-! ### Association-list lemmas for the custom-data merge -/

theorem jget_jdel_ne {α : Type} (l : List (String × α)) (kd k : String) (h : k ≠ kd) :
    jget (jdel l kd) k = jget l k := by
  induction l with
  | nil => rfl
  | cons p rest ih =>
      have hdel : jdel (p :: rest) kd =
          if p.1 != kd then p :: jdel rest kd else jdel rest kd := by
        simp [jdel, List.filter_cons]
      by_cases hp : p.1 = kd
      · rw [hdel, if_neg (by simp [hp])]
        have hpk : ¬ p.1 = k := by
          rw [hp]
          exact fun he => h he.symm
        rw [show jget (p :: rest) k = jget rest k from by simp [jget, hpk]]
        exact ih
      · rw [hdel, if_pos (by simp [hp])]
        by_cases hk : p.1 = k
        · simp [jget, hk]
        · simp [jget, hk]
          exact ih

theorem jget_append_some {α : Type} (a b : List (String × α)) (k : String) (v : α)
    (h : jget a k = some v) : jget (a ++ b) k = some v := by
  induction a with
  | nil => simp [jget] at h
  | cons p rest ih =>
      by_cases hp : p.1 = k
      · simpa [jget, hp] using h
      · simp [jget, hp] at h ⊢
        exact ih h

theorem jget_map_str (l : List (String × String)) (k : String) :
    jget (l.map (fun p => (p.1, JsVal.str p.2))) k =
      Option.map JsVal.str (jget l k) := by
  induction l with
  | nil => rfl
  | cons p rest ih =>
      by_cases hp : p.1 = k <;> simp [jget, hp, ih]

theorem jget_ne_nil {α : Type} (l : List (String × α)) (k : String) (v : α)
    (h : jget l k = some v) : l ≠ [] := by
  intro he
  subst he
  simp [jget] at h

/-- Claim C10: for every key other than fbclid present in both the
validated custom-data object and the caller-supplied urlParameters
map, the outbound custom_data carries the urlParameters value for
that key: the cleaned url-parameter map is spread last into the final
custom-data object. -/
theorem claim_C10_url_overwrite :
    ∀ (userFbc : Option String) (custom : List (String × JsVal))
      (url : List (String × String)) (k : String) (v : JsVal) (s : String),
      k ≠ "fbclid" → jget custom k = some v → jget url k = some s →
      jget (mergeCustomData userFbc custom (some url)).finalCustomData k =
        some (JsVal.str s) := by
  intro userFbc custom url k v s hk hc hu
  have hurl : jget (fbclidStep1 userFbc url).2 k = some s := by
    unfold fbclidStep1
    cases hf : jget url "fbclid" with
    | none => simpa using hu
    | some q =>
        by_cases hq : q = "" <;>
          simp [hq, jget_jdel_ne url "fbclid" k hk, hu]
  have hne : (fbclidStep1 userFbc url).2 ≠ [] := jget_ne_nil _ _ _ hurl
  have hobj : jget ((fbclidStep1 userFbc url).2.map (fun p => (p.1, JsVal.str p.2))) k =
      some (JsVal.str s) := by
    rw [jget_map_str, hurl]
    rfl
  show jget (if (fbclidStep1 userFbc ((some url).getD [])).2 = [] then _ else _) k = _
  simp only [Option.getD] at *
  rw [if_neg hne]
  exact jget_append_some _ _ _ _ hobj

/-- Witness for claim C10: the validated value field of a payload is
overwritten by an equally named url parameter. -/
theorem claim_C10_witness :
    jget (mergeCustomData none [("value", JsVal.num 10), ("currency", JsVal.str "BRL")]
      (some [("value", "999"), ("utm_source", "fb")])).finalCustomData "value" =
      some (JsVal.str "999") := by
  exact claim_C10_url_overwrite none
    [("value", JsVal.num 10), ("currency", JsVal.str "BRL")]
    [("value", "999"), ("utm_source", "fb")] "value" (JsVal.num 10) "999"
    (by decide) (by decide) (by decide)

/-! ### Claim C1: fbc and fbp precedence between cookie and body -/

theorem fbclidStep1_fst_of_not_truthy (userFbc : Option String)
    (url : List (String × String))
    (h : jsTruthyOpt (jget url "fbclid") = false) :
    (fbclidStep1 userFbc url).1 = userFbc := by
  unfold fbclidStep1
  cases hf : jget url "fbclid" with
  | none => rfl
  | some q =>
      rw [hf] at h
      simp [jsTruthyOpt] at h
      simp [h]

theorem fbclidStep2_fst_of_truthy (cand : Option String)
    (custom : List (String × JsVal)) (h : jsTruthyOpt cand = true) :
    (fbclidStep2 cand custom).1 = cand := by
  unfold fbclidStep2
  cases hf : jget custom "fbclid" with
  | none => rfl
  | some v => simp [h]

/-- Counterexample to claim C1: with a first-party _fbc cookie and a
different explicit body fbc both present (and no fbclid anywhere),
the resolved fbc equals the cookie value, not the explicit body
value; the same for fbp. -/
theorem claim_C1_counterexample :
    trackRouteResolvedFbc (some "fb.1.1.client") (some "fb.1.1.cookie") [] none =
      some "fb.1.1.cookie" ∧
    (some "fb.1.1.cookie" : Option String) ≠ some "fb.1.1.client" ∧
    routeMergeId (some "fb.1.client") (some "fb.1.cookie") = some "fb.1.cookie" ∧
    (some "fb.1.cookie" : Option String) ≠ some "fb.1.client" := by
  refine ⟨by decide, by decide, by decide, by decide⟩

/-- Claim C1 as amended: whenever the first-party cookie is truthy,
the route merge resolves fbc (and fbp) to the cookie value, the
explicit body value surviving only when it already equals the cookie
or when the cookie is absent or empty; and with no truthy
url-parameter fbclid the dispatcher preserves that cookie value into
the outbound identity block. -/
theorem claim_C1_amended :
    (∀ (clientVal cookieVal : Option String) (custom : List (String × JsVal))
      (url : Option (List (String × String))),
      jsTruthyOpt cookieVal = true →
      jsTruthyOpt (jget (url.getD []) "fbclid") = false →
      routeMergeId clientVal cookieVal = cookieVal ∧
      trackRouteResolvedFbc clientVal cookieVal custom url = cookieVal) ∧
    (∀ clientVal cookieVal : Option String,
      jsTruthyOpt cookieVal = false →
      routeMergeId clientVal cookieVal = clientVal) := by
  constructor
  · intro clientVal cookieVal custom url hck hurl
    have hmerge : routeMergeId clientVal cookieVal = cookieVal := by
      unfold routeMergeId
      by_cases he : clientVal = cookieVal
      · subst he
        simp [hck]
      · simp [hck, he]
    refine ⟨hmerge, ?_⟩
    unfold trackRouteResolvedFbc sendEventResolvedFbc
    rw [hmerge]
    simp only [mergeCustomData]
    rw [fbclidStep2_fst_of_truthy _ _ (by rw [fbclidStep1_fst_of_not_truthy _ _ hurl]; exact hck)]
    rw [fbclidStep1_fst_of_not_truthy _ _ hurl]
    cases cookieVal with
    | none => cases hck
    | some c =>
        simp [jsTruthyOpt] at hck
        simp [hck]
  · intro clientVal cookieVal hck
    unfold routeMergeId
    rw [if_neg]
    intro hand
    rw [hand.1] at hck
    cases hck

/-- Witness for claim C1 as amended, at concrete inputs. -/
theorem claim_C1_amended_witness :
    routeMergeId (some "fb.1.w.client") (some "fb.1.w.cookie") = some "fb.1.w.cookie" ∧
    trackRouteResolvedFbc (some "fb.1.w.client") (some "fb.1.w.cookie")
      [("utm_source", JsVal.str "fb")] (some [("utm_medium", "cpc")]) =
      some "fb.1.w.cookie" := by
  have h := claim_C1_amended.1 (some "fb.1.w.client") (some "fb.1.w.cookie")
    [("utm_source", JsVal.str "fb")] (some [("utm_medium", "cpc")])
    (by decide) (by decide)
  exact h

/-! ### Claim C2: value tolerance of the AddToCart and
InitiateCheckout validators -/

/-- An AddToCart payload whose supplied value differs from the
computed contents total by 0.009: within the absolute tolerance 0.01
of the code, but outside one percent of the computed total 0.5. -/
def c2AtcPayload : AddToCartData :=
  { content_ids := some ["SKU1"]
    content_name := some "Small product"
    value := some (509/1000)
    currency := some "BRL"
    quantity := some 1
    contents := some [⟨"SKU1", 1, 1/2⟩] }

/-- Counterexample to claim C2: the payload passes validation even
though its value is not within one percent relative tolerance of the
calculated total. -/
theorem claim_C2_counterexample :
    (validateEcommerceAddToCartData c2AtcPayload).isValid = true ∧
    ¬ (|atcSumValue [⟨"SKU1", 1, 1/2⟩] - (509/1000 : Rat)| ≤
        atcSumValue [⟨"SKU1", 1, 1/2⟩] * (1/100)) := by
  constructor
  · norm_num [validateEcommerceAddToCartData, addToCartFieldErrors,
      addToCartItemErrors, c2AtcPayload, atcSumValue, atcSumQuantity,
      isPosInt, abs]
    decide
  · norm_num [atcSumValue, abs]

/-- Claim C2 as amended: for AddToCart and InitiateCheckout payloads
passing the per-field checks and carrying a non-empty contents array,
validation succeeds exactly when the computed quantity sum equals the
asserted count and the computed value sum matches the asserted value
within the absolute tolerance 0.01 (not a relative one-percent
tolerance); violating either produces a non-empty error list. -/
theorem claim_C2_amended :
    (∀ (d : AddToCartData) (l : List AddToCartItem),
      addToCartFieldErrors d = [] → d.contents = some l → l ≠ [] →
      ((validateEcommerceAddToCartData d).isValid = true ↔
        (atcSumQuantity l = d.quantity.getD 0 ∧
          |atcSumValue l - d.value.getD 0| ≤ 1/100)) ∧
      ((validateEcommerceAddToCartData d).isValid = false →
        (validateEcommerceAddToCartData d).errors ≠ [])) ∧
    (∀ (d : CheckoutData) (l : List CheckoutItem),
      checkoutFieldErrors d = [] → d.contents = some l → l ≠ [] →
      ((validateEcommerceCheckoutData d).isValid = true ↔
        (icSumQuantity l = d.num_items.getD 0 ∧
          |icSumValue l - d.value.getD 0| ≤ 1/100)) ∧
      ((validateEcommerceCheckoutData d).isValid = false →
        (validateEcommerceCheckoutData d).errors ≠ [])) := by
  constructor
  · intro d l h1 hc hne
    have heval : validateEcommerceAddToCartData d =
        (if ((if (1 : Rat)/100 < |atcSumValue l - d.value.getD 0| then
              ["value does not match calculated total from contents"] else []) ++
            (if atcSumQuantity l ≠ d.quantity.getD 0 then
              ["quantity does not match calculated total from contents"] else [])) ≠ [] then
          ⟨false, (if (1 : Rat)/100 < |atcSumValue l - d.value.getD 0| then
              ["value does not match calculated total from contents"] else []) ++
            (if atcSumQuantity l ≠ d.quantity.getD 0 then
              ["quantity does not match calculated total from contents"] else [])⟩
        else ⟨true, []⟩) := by
      unfold validateEcommerceAddToCartData
      rw [h1, hc]
      simp [hne]
    by_cases hA : (1 : Rat)/100 < |atcSumValue l - d.value.getD 0|
    · have hval : (validateEcommerceAddToCartData d).isValid = false ∧
          (validateEcommerceAddToCartData d).errors ≠ [] := by
        rw [heval]
        simp only [if_pos hA]
        simp
      refine ⟨⟨fun hv => absurd hv (by simp [hval.1]), ?_⟩, fun _ => hval.2⟩
      exact fun hq => absurd hq.2 (not_le.mpr hA)
    · by_cases hB : atcSumQuantity l = d.quantity.getD 0
      · have hBne : ¬ (atcSumQuantity l ≠ d.quantity.getD 0) := not_not_intro hB
        have hval : validateEcommerceAddToCartData d = ⟨true, []⟩ := by
          rw [heval]
          simp only [if_neg hA, if_neg hBne]
          decide
        refine ⟨⟨fun _ => ⟨hB, not_lt.mp hA⟩, fun _ => by rw [hval]⟩, ?_⟩
        intro hv
        rw [hval] at hv
        exact absurd hv (by decide)
      · have hval : validateEcommerceAddToCartData d =
            ⟨false, ["quantity does not match calculated total from contents"]⟩ := by
          rw [heval]
          simp only [if_neg hA, if_pos hB]
          decide
        refine ⟨⟨fun hv => ?_, fun hq => absurd hq.1 hB⟩, fun _ => by rw [hval]; decide⟩
        rw [hval] at hv
        exact absurd hv (by decide)
  · intro d l h1 hc hne
    have heval : validateEcommerceCheckoutData d =
        (if ((if (0 : Rat) < |icSumQuantity l - d.num_items.getD 0| then
              ["num_items does not match calculated total quantity"] else []) ++
            (if (1 : Rat)/100 < |icSumValue l - d.value.getD 0| then
              ["value does not match calculated cart total"] else [])) ≠ [] then
          ⟨false, (if (0 : Rat) < |icSumQuantity l - d.num_items.getD 0| then
              ["num_items does not match calculated total quantity"] else []) ++
            (if (1 : Rat)/100 < |icSumValue l - d.value.getD 0| then
              ["value does not match calculated cart total"] else [])⟩
        else ⟨true, []⟩) := by
      unfold validateEcommerceCheckoutData
      rw [h1, hc]
      simp
    have habs : (0 : Rat) < |icSumQuantity l - d.num_items.getD 0| ↔
        icSumQuantity l ≠ d.num_items.getD 0 := by
      rw [abs_pos, sub_ne_zero]
    by_cases hB : icSumQuantity l = d.num_items.getD 0
    · have hA : ¬ (0 : Rat) < |icSumQuantity l - d.num_items.getD 0| := by
        rw [habs]
        exact not_not_intro hB
      by_cases hV : (1 : Rat)/100 < |icSumValue l - d.value.getD 0|
      · have hval : validateEcommerceCheckoutData d =
            ⟨false, ["value does not match calculated cart total"]⟩ := by
          rw [heval]
          simp only [if_neg hA, if_pos hV]
          decide
        refine ⟨⟨fun hv => ?_, fun hq => absurd hq.2 (not_le.mpr hV)⟩,
          fun _ => by rw [hval]; decide⟩
        rw [hval] at hv
        exact absurd hv (by decide)
      · have hval : validateEcommerceCheckoutData d = ⟨true, []⟩ := by
          rw [heval]
          simp only [if_neg hA, if_neg hV]
          decide
        refine ⟨⟨fun _ => ⟨hB, not_lt.mp hV⟩, fun _ => by rw [hval]⟩, ?_⟩
        intro hv
        rw [hval] at hv
        exact absurd hv (by decide)
    · have hA : (0 : Rat) < |icSumQuantity l - d.num_items.getD 0| := habs.mpr hB
      have hval : (validateEcommerceCheckoutData d).isValid = false ∧
          (validateEcommerceCheckoutData d).errors ≠ [] := by
        rw [heval]
        simp only [if_pos hA]
        simp
      refine ⟨⟨fun hv => absurd hv (by simp [hval.1]), fun hq => absurd hq.1 hB⟩,
        fun _ => hval.2⟩

/-- Witness for claim C2 as amended: consistent payloads of both
kinds validate successfully. -/
theorem claim_C2_amended_witness :
    (validateEcommerceAddToCartData
      { content_ids := some ["A1"], content_name := some "Widget",
        value := some 10, currency := some "BRL", quantity := some 2,
        contents := some [⟨"A1", 2, 5⟩] }).isValid = true ∧
    (validateEcommerceCheckoutData
      { contents := some [⟨"A1", 2, 5, none⟩], value := some 10,
        currency := some "BRL", num_items := some 2 }).isValid = true := by
  constructor
  · refine ((claim_C2_amended.1
      { content_ids := some ["A1"], content_name := some "Widget",
        value := some 10, currency := some "BRL", quantity := some 2,
        contents := some [⟨"A1", 2, 5⟩] }
      [⟨"A1", 2, 5⟩] ?_ rfl (by decide)).1).mpr ?_
    · norm_num [addToCartFieldErrors, addToCartItemErrors, isPosInt]
      decide
    · norm_num [atcSumQuantity, atcSumValue, abs]
  · refine ((claim_C2_amended.2
      { contents := some [⟨"A1", 2, 5, none⟩], value := some 10,
        currency := some "BRL", num_items := some 2 }
      [⟨"A1", 2, 5, none⟩] ?_ rfl (by decide)).1).mpr ?_
    · norm_num [checkoutFieldErrors, checkoutItemErrors, isPosInt]
      decide
    · norm_num [icSumQuantity, icSumValue, abs]

/-! ### Claim C3: Purchase aggregate-value mismatch -/

/-- A Purchase payload whose supplied value 50 differs from the
derived total 10 by far more than the 0.01 tolerance, with every
per-field check satisfied. -/
def c3Payload : PurchaseData :=
  { order_id := some "ORDER-1"
    value := some 50
    currency := some "BRL"
    num_items := some 1
    contents := some [⟨"P1", 1, 10, none, none⟩] }

/-- Counterexample to claim C3: the mismatching Purchase payload
passes validation, so the mismatch is not rejected. -/
theorem claim_C3_counterexample :
    (validateEcommercePurchaseData c3Payload).isValid = true ∧
    (1 : Rat)/100 < |purchaseExpectedTotal c3Payload - (50 : Rat)| := by
  constructor
  · norm_num [validateEcommercePurchaseData, purchaseFieldErrors,
      purchaseItemErrors, c3Payload, purchaseSumQuantity, isPosInt]
    decide
  · norm_num [purchaseExpectedTotal, purchaseSumSubtotal, c3Payload, abs]

/-- Claim C3 as amended: the Purchase validator succeeds exactly when
the per-field checks pass and the computed quantity sum equals
num_items; the supplied aggregate value never takes part in the
decision, because the beyond-tolerance mismatch with the derived
total is only logged as a console warning and the event proceeds to
dispatch. -/
theorem claim_C3_amended :
    ∀ d : PurchaseData,
      (validateEcommercePurchaseData d).isValid = true ↔
        (purchaseFieldErrors d = [] ∧
          purchaseSumQuantity (d.contents.getD []) = d.num_items.getD 0) := by
  intro d
  unfold validateEcommercePurchaseData
  by_cases h1 : purchaseFieldErrors d = []
  · rw [h1]
    by_cases h2 : purchaseSumQuantity (d.contents.getD []) = d.num_items.getD 0 <;>
      simp [h1, h2]
  · simp [h1]

/-- Witness for claim C3 as amended, at the concrete mismatching
payload. -/
theorem claim_C3_amended_witness :
    (validateEcommercePurchaseData c3Payload).isValid = true := by
  refine (claim_C3_amended c3Payload).mpr ⟨?_, ?_⟩
  · norm_num [purchaseFieldErrors, purchaseItemErrors, c3Payload, isPosInt]
    decide
  · norm_num [purchaseSumQuantity, c3Payload]

/-! ### Claim C8: the deduplication identifier -/

/-- Counterexample to claim C8: a submission without a caller
eventId gets the literal placeholder as payload event_id, not a
server-generated identifier. -/
theorem claim_C8_counterexample : routePayloadEventId none = some "N/A" := by decide

/-- Claim C8 as amended: the payload event_id equals the caller
supplied body eventId when that is truthy, and is the literal
placeholder string otherwise; the routes never generate an
identifier. -/
theorem claim_C8_amended :
    ∀ b : Option String,
      (jsTruthyOpt b = true → routePayloadEventId b = b) ∧
      (jsTruthyOpt b = false → routePayloadEventId b = some "N/A") := by
  intro b
  cases b with
  | none => exact ⟨fun h => absurd h (by decide), fun _ => by decide⟩
  | some s =>
      constructor
      · intro h
        simp only [jsTruthyOpt, ne_eq, decide_eq_true_eq] at h
        simp [routePayloadEventId, routeEventId, payloadEventId, jsOrStr, h]
      · intro h
        simp only [jsTruthyOpt, ne_eq, decide_eq_true_eq, Bool.not_eq_true,
          decide_eq_false_iff_not, not_not] at h
        simp [routePayloadEventId, routeEventId, payloadEventId, jsOrStr, h]

/-- Witness for claim C8 as amended. -/
theorem claim_C8_amended_witness :
    routePayloadEventId (some "evt_123") = some "evt_123" ∧
    routePayloadEventId (some "") = some "N/A" :=
  ⟨(claim_C8_amended (some "evt_123")).1 (by decide),
   (claim_C8_amended (some "")).2 (by decide)⟩

/-! ### Claim C9: the missing-credentials guard -/

theorem jsOrStr_ne_empty (o : Option String) (d : String) (hd : d ≠ "") :
    jsOrStr o d ≠ "" := by
  cases o with
  | none => exact hd
  | some s =>
      show (if s = "" then d else s) ≠ ""
      by_cases h : s = ""
      · rw [if_pos h]
        exact hd
      · rw [if_neg h]
        exact h

/-- Counterexample to claim C9: with neither credential configured in
the environment, the dispatcher does not fail fast; it proceeds to
the outbound call using the hard-coded fallback credentials. -/
theorem claim_C9_counterexample :
    sendServerEventGate (ACCESS_TOKEN none) (DATASET_ID none) = .proceed := by decide

/-- Claim C9 as amended: the guard returns the configuration error
and skips the outbound call only when the resolved access token or
dataset id is the empty string, and because both resolve through
non-empty hard-coded fallbacks, a missing environment configuration
never triggers it: the dispatcher always proceeds to the outbound
call. -/
theorem claim_C9_amended :
    (∀ tokEnv dsEnv : Option String,
      sendServerEventGate (ACCESS_TOKEN tokEnv) (DATASET_ID dsEnv) = .proceed) ∧
    (∀ tok ds : String, (tok = "" ∨ ds = "") →
      sendServerEventGate tok ds =
        .configError "Missing Facebook API credentials on server.") := by
  constructor
  · intro tokEnv dsEnv
    have htok : ACCESS_TOKEN tokEnv ≠ "" := jsOrStr_ne_empty _ _ (by decide)
    have hds : DATASET_ID dsEnv ≠ "" := jsOrStr_ne_empty _ _ (by decide)
    unfold sendServerEventGate
    rw [if_neg (fun hor => hor.elim htok hds)]
  · intro tok ds h
    unfold sendServerEventGate
    rw [if_pos h]

/-- Witness for claim C9 as amended. -/
theorem claim_C9_amended_witness :
    sendServerEventGate (ACCESS_TOKEN (some "tok_1")) (DATASET_ID (some "ds_1")) = .proceed ∧
    sendServerEventGate "" "701320582382618" =
      .configError "Missing Facebook API credentials on server." :=
  ⟨claim_C9_amended.1 (some "tok_1") (some "ds_1"),
   claim_C9_amended.2 "" "701320582382618" (Or.inl rfl)⟩
